import Mathlib

/-!
Shallow embedding of the live-session controller in `src/ui/app.js`
(class `RFSNApp`).  The DOM is modelled as explicit display fields of the
application state; `Date.now()` is an explicit millisecond clock `now`
carried in the state and advanced by the timer driver; the browser's
ambient `Math.random()` is an explicit stream `rng : Nat → Nat` consumed
at the tick index.  Asynchronous control flow (`await fetch` inside
`startAgent` / `stopAgent`, the simulation `setInterval`) is split into
its synchronous prefix and its continuation, sequenced by an explicit
action trace; the in-flight continuations and the live interval are
tracked by the bookkeeping flags `startInFlight`, `stopInFlight`,
`simActive`.  `completions` is an observer trace recording each
invocation of `handleTaskComplete` (the delivery of a terminal
`complete` event to observers/history).
-/

namespace RFSN

/-- One entry of the on-screen log (`addLog`): the wall-clock stamp (the
source formats `new Date().toLocaleTimeString()`; we keep the raw clock),
the level string and the message. -/
structure LogEntry where
  time : Nat
  level : String
  message : String
deriving DecidableEq

/-- The configuration gathered from the form by `gatherConfig`.  All form
fields are carried; only `repoUrl`, `problemStatement`, `llmApiKey` are
checked by `validateConfig`, and `repoUrl`, `profile`, `maxSteps`,
`maxTime` are echoed into the start-up log. -/
structure Config where
  repoUrl : String
  repoBranch : String
  problemStatement : String
  githubToken : String
  githubUsername : String
  createPR : Bool
  commitChanges : Bool
  llmProvider : String
  llmApiKey : String
  llmModel : String
  temperature : Rat
  profile : String
  maxSteps : Nat
  maxTime : Nat
  useTrace : Bool
  useRipgrep : Bool
  useSymbols : Bool
  useEmbeddings : Bool
  strategyDirect : Bool
  strategyTestDriven : Bool
  strategyEnsemble : Bool
deriving DecidableEq

/-- A parsed JSON message object as consumed by `handleWebSocketMessage`
and `updateProgress`/`handleTaskComplete`.  Every field a handler reads is
optional, mirroring dynamic property access on a JS object (`undefined`
when absent).  Note the distinct `steps` field: `updateProgress` really
tests `data.steps`, a field separate from `current_step`/`total_steps`. -/
structure MsgData where
  type_ : Option String := none
  phase : Option String := none
  level : Option String := none
  message : Option String := none
  steps : Option Nat := none
  current_step : Option Nat := none
  total_steps : Option Nat := none
  patches : Option Nat := none
  progress : Option Rat := none
  success : Option Bool := none
  time_taken : Option Nat := none
deriving DecidableEq

/-- The whole application state: `RFSNApp`'s own fields (`config`,
`isRunning`, `startTime`, `timerInterval`, `websocket`), the DOM pieces
the class writes, the ambient clock, the observer trace of `complete`
deliveries, and the bookkeeping for in-flight async continuations and the
simulation interval (`runSimulation`'s closure locals `step`,
`phaseIndex` and whether its interval is still scheduled). -/
structure AppState where
  config : Option Config
  isRunning : Bool
  startTime : Option Nat
  timerInterval : Bool
  websocket : Bool
  now : Nat
  currentPhase : String
  stepsText : String
  patchesText : String
  progressFillPct : Option Rat
  statusText : String
  statusColor : String
  startBtnDisabled : Bool
  stopBtnDisabled : Bool
  pauseBtnDisabled : Bool
  activeTab : String
  log : List LogEntry
  notifications : List (String × String)
  completions : List (Option Bool × Option Nat)
  startInFlight : Bool
  stopInFlight : Bool
  simActive : Bool
  simStep : Nat
  simPhaseIndex : Nat
deriving DecidableEq

/-- Rendering of a possibly-absent string into a template literal:
JS interpolates the value `undefined` as the text `"undefined"`. -/
def renderOptS : Option String → String
  | some s => s
  | none => "undefined"

/-- Rendering of a possibly-absent number into a template literal. -/
def renderOptN : Option Nat → String
  | some n => toString n
  | none => "undefined"

/-- Rendering of a possibly-absent boolean into a template literal. -/
def renderOptB : Option Bool → String
  | some true => "true"
  | some false => "false"
  | none => "undefined"

/-- The ring-buffer bound of `addLog`: `while (container.children.length
> 100) removeChild(firstChild)` — drop oldest entries until at most 100
remain. -/
def capLog (l : List LogEntry) : List LogEntry :=
  if 100 < l.length then l.drop (l.length - 100) else l

/-- `addLog(level, message)`: append a stamped entry, then evict oldest
entries past the 100-entry cap. -/
def addLog (level message : String) (st : AppState) : AppState :=
  { st with log := capLog (st.log ++ [⟨st.now, level, message⟩]) }

/-- `showNotification(message, type)`: the transient DOM notification,
recorded as an appended (message, type) pair. -/
def showNotification (message ntype : String) (st : AppState) : AppState :=
  { st with notifications := st.notifications ++ [(message, ntype)] }

/-- The status-dot colour lookup object in `updateStatus`, with its
`|| 'var(--success)'` default. -/
def statusColorOf (status : String) : String :=
  if status = "idle" then "var(--success)"
  else if status = "running" then "var(--primary)"
  else if status = "error" then "var(--danger)"
  else if status = "paused" then "var(--warning)"
  else "var(--success)"

/-- `updateStatus(status, text)`. -/
def updateStatus (status text : String) (st : AppState) : AppState :=
  { st with statusColor := statusColorOf status, statusText := text }

/-- `clearLog()`: empty the container, then log "Log cleared". -/
def clearLog (st : AppState) : AppState :=
  addLog "info" "Log cleared" { st with log := [] }

/-- `updatePhase(phase)`: write the phase into the `currentPhase`
element. -/
def updatePhase (phase : Option String) (st : AppState) : AppState :=
  { st with currentPhase := renderOptS phase }

/-- `updateProgress(data)`: three independent sparse updates.  Faithful
to the source: the steps display is guarded on `data.steps !==
undefined` while its text interpolates `data.current_step` and
`data.total_steps`; the patches display is guarded on `data.patches`;
the progress bar on `data.progress` (stored here as the raw percentage
value the source writes as a CSS width). -/
def updateProgress (d : MsgData) (st : AppState) : AppState :=
  let st1 := if d.steps ≠ none then
      { st with stepsText := renderOptN d.current_step ++ " / " ++ renderOptN d.total_steps }
    else st
  let st2 := if d.patches ≠ none then { st1 with patchesText := renderOptN d.patches } else st1
  if d.progress ≠ none then { st2 with progressFillPct := d.progress } else st2

/-- `cleanupAfterRun()`: clear `isRunning`, cancel the elapsed timer,
close and null the websocket, re-enable/disable the buttons, show the
idle status and log "Agent stopped".  (The `if (this.timerInterval)` and
`if (this.websocket)` guards in the source produce the same final
assignment as the unconditional clear modelled here.) -/
def cleanupAfterRun (st : AppState) : AppState :=
  addLog "info" "Agent stopped"
    (updateStatus "idle" "Ready"
      { st with isRunning := false, timerInterval := false, websocket := false,
                startBtnDisabled := false, stopBtnDisabled := true, pauseBtnDisabled := true })

/-- `handleTaskComplete(data)`: success/time logs, teardown via
`cleanupAfterRun`, completion notification, switch to the results tab;
the final field records the delivery of this terminal `complete` event to
the observer trace. -/
def handleTaskComplete (d : MsgData) (st : AppState) : AppState :=
  let st := addLog "success" "✅ Task completed!" st
  let st := addLog "info" ("Success: " ++ renderOptB d.success) st
  let st := addLog "info" ("Time: " ++ renderOptN d.time_taken ++ "s") st
  let st := cleanupAfterRun st
  let st := showNotification "✅ Task completed!" "success" st
  let st := { st with activeTab := "results" }
  { st with completions := st.completions ++ [(d.success, d.time_taken)] }

/-- `handleWebSocketMessage(data)`: the `switch (data.type)` dispatch.
A message whose `type` is absent or unrecognized falls through the
switch and is a no-op. -/
def handleWebSocketMessage (d : MsgData) (st : AppState) : AppState :=
  if d.type_ = some "phase" then
    addLog "info" ("Phase: " ++ renderOptS d.phase) (updatePhase d.phase st)
  else if d.type_ = some "log" then
    addLog (renderOptS d.level) (renderOptS d.message) st
  else if d.type_ = some "progress" then
    updateProgress d st
  else if d.type_ = some "complete" then
    handleTaskComplete d st
  else if d.type_ = some "error" then
    addLog "error" (renderOptS d.message) st
  else st

/-- An incoming websocket frame: either text `JSON.parse` rejects, or a
parsed JSON object. -/
inductive Frame where
  | malformed
  | msg (d : MsgData)
deriving DecidableEq

/-- The `websocket.onmessage` handler body: `const data =
JSON.parse(event.data); this.handleWebSocketMessage(data);` — there is
no try/catch, so a parse failure is a thrown exception (`Except.error`)
escaping the handler. -/
def onmessage (f : Frame) (st : AppState) : Except Unit AppState :=
  match f with
  | .malformed => .error ()
  | .msg d => .ok (handleWebSocketMessage d st)

/-- Delivery of one frame as seen by the rest of the system: the browser
event loop swallows an exception thrown out of an event handler (it is
reported to the console), leaving the application state untouched — the
handler mutated nothing before the throw. -/
def wsDeliver (f : Frame) (st : AppState) : AppState :=
  match onmessage f st with
  | .ok st' => st'
  | .error _ => st

/-- The per-field checks of `validateConfig()`: a missing required field
is an empty form value (DOM inputs always yield strings; the empty
string is falsy). -/
def requiredErrors (cfg : Config) : List String :=
  (if cfg.repoUrl = "" then ["Repository URL is required"] else []) ++
  (if cfg.problemStatement = "" then ["Problem statement is required"] else []) ++
  (if cfg.llmApiKey = "" then ["LLM API key is required"] else [])

/-- `validateConfig()`: gather the form config, collect the errors; on
failure log each error, show the error notification and return `false`;
on success return `true` with the state untouched. -/
def validateConfigRun (cfg : Config) (st : AppState) : AppState × Bool :=
  let errors := requiredErrors cfg
  if errors.length > 0 then
    (showNotification "❌ Configuration errors. Check log." "error"
      (errors.foldl (fun s e => addLog "error" e s) st), false)
  else (st, true)

/-- `startTimer()`: schedule the elapsed-time interval (its callback
only rewrites the elapsed-time display, which no claim touches). -/
def startTimer (st : AppState) : AppState :=
  { st with timerInterval := true }

/-- The synchronous prefix of `startAgent()` — everything up to the
`await fetch('/api/start')`.  Returns the state together with whether
the start request was actually issued (`startInFlight` is the pending
fetch).  The two `gatherConfig()` calls (inside `validateConfig` and at
`this.config = this.gatherConfig()`) read the same form, hence the same
`cfg`. -/
def startSync (cfg : Config) (st : AppState) : AppState × Bool :=
  match validateConfigRun cfg st with
  | (st1, false) => (st1, false)
  | (st1, true) =>
    if st1.isRunning then
      (showNotification "⚠️ Agent is already running" "warning" st1, false)
    else
      let st2 := { st1 with
        config := some cfg, isRunning := true, startTime := some st1.now,
        startBtnDisabled := true, stopBtnDisabled := false, pauseBtnDisabled := false }
      let st2 := updateStatus "running" "Running" st2
      let st2 := { st2 with activeTab := "process" }
      let st2 := clearLog st2
      let st2 := addLog "info" "Starting RFSN Agent..." st2
      let st2 := addLog "info" ("Repository: " ++ cfg.repoUrl) st2
      let st2 := addLog "info" ("Profile: " ++ cfg.profile) st2
      let st2 := addLog "info"
        ("Max Steps: " ++ toString cfg.maxSteps ++ ", Max Time: " ++ toString cfg.maxTime
          ++ " minutes") st2
      let st2 := startTimer st2
      ({ st2 with startInFlight := true }, true)

/-- Settlement of `startAgent`'s fetch: either the backend answered OK
with a task id, or the request failed (network error or non-2xx, whose
thrown message is `errMsg`). -/
inductive FetchResult where
  | ok (taskId : String)
  | fail (errMsg : String)
deriving DecidableEq

/-- `runSimulation()`'s entry: initialize the closure locals
(`phaseIndex = 0`, `step = 0`) and schedule the simulation interval. -/
def runSimulationStart (st : AppState) : AppState :=
  { st with simActive := true, simStep := 0, simPhaseIndex := 0 }

/-- The continuation of `startAgent()` after its fetch settles: on
success log and connect the websocket (`connectWebSocket` assigns
`this.websocket`); on failure log the error and the fallback warning and
start the simulation. -/
def startResolve (r : FetchResult) (st : AppState) : AppState :=
  if st.startInFlight = false then st
  else
    let st := { st with startInFlight := false }
    match r with
    | .ok taskId =>
      let st := addLog "success" ("Agent started successfully. Task ID: " ++ taskId) st
      { st with websocket := true }
    | .fail errMsg =>
      let st := addLog "error" ("Failed to start agent: " ++ errMsg) st
      let st := addLog "warning" "Running in simulation mode (backend not available)" st
      runSimulationStart st

/-- The synchronous prefix of `stopAgent()` — the `if (!this.isRunning)
return;` guard and the "Stopping agent..." log, up to the `await
fetch('/api/stop')`.  Returns whether the stop continuation was
scheduled. -/
def stopSync (st : AppState) : AppState × Bool :=
  if st.isRunning = false then (st, false)
  else
    let st := addLog "warning" "Stopping agent..." st
    ({ st with stopInFlight := true }, true)

/-- The continuation of `stopAgent()` after its fetch settles (`ok`
tells whether the backend was reachable): the corresponding log line,
then `cleanupAfterRun()`. -/
def stopResolve (ok : Bool) (st : AppState) : AppState :=
  if st.stopInFlight = false then st
  else
    let st := { st with stopInFlight := false }
    let st := if ok then addLog "info" "Stop signal sent to agent" st
      else addLog "warning" "Could not reach backend, stopping locally" st
    cleanupAfterRun st

/-- `stopAgent()` run to completion with no interleaving: the
synchronous prefix immediately followed by its continuation. -/
def stopFull (ok : Bool) (st : AppState) : AppState :=
  match stopSync st with
  | (st1, true) => stopResolve ok st1
  | (st1, false) => st1

/-- The fixed phase list of `runSimulation()`. -/
def phases : List String :=
  ["INGEST", "LOCALIZE", "PLAN", "PATCH", "TEST", "DIAGNOSE", "FINALIZE"]

/-- The fixed message pool `runSimulation()` samples from. -/
def simMessages : List String :=
  ["Analyzing repository structure...", "Running localization layers...",
   "Found 5 potential bug locations", "Generating patch candidates...",
   "Testing patch #1...", "Patch validation successful", "Running test suite..."]

/-- One firing of `runSimulation()`'s interval callback.  `rng` is the
ambient `Math.random()` modelled as a stream of choices indexed by the
tick number; `Math.floor(Math.random() * messages.length)` becomes
`rng step % simMessages.length`.  A cleared interval is `simActive :=
false`. -/
def simTick (rng : Nat → Nat) (st : AppState) : AppState :=
  if st.isRunning = false then { st with simActive := false }
  else
    let st :=
      if st.simStep % 3 = 0 ∧ st.simPhaseIndex < phases.length then
        let ph := phases.getD st.simPhaseIndex ""
        let st := addLog "info" ("Entering phase: " ++ ph) (updatePhase (some ph) st)
        { st with simPhaseIndex := st.simPhaseIndex + 1 }
      else st
    let step := st.simStep + 1
    let st := { st with simStep := step }
    let st := updateProgress
      { type_ := some "progress", current_step := some step, total_steps := some 30,
        patches := some (step / 5), progress := some (min ((step : Rat) / 30 * 100) 100) } st
    let st :=
      if step % 2 = 0 then
        addLog "info" (simMessages.getD (rng step % simMessages.length) "") st
      else st
    if 30 ≤ step then
      let st := { st with simActive := false }
      handleTaskComplete
        { success := some true, time_taken := some ((st.now - st.startTime.getD 0) / 1000) } st
    else st

/-- The atomic scheduling units of the single-threaded event loop: the
synchronous prefixes of `startAgent`/`stopAgent`, the settlement of
their fetches, one simulation-interval firing (one second of wall time),
and the delivery of one websocket frame. -/
inductive Action where
  | startSyncA (cfg : Config)
  | startResolveA (r : FetchResult)
  | stopSyncA
  | stopResolveA (ok : Bool)
  | simTickA
  | wsMessageA (f : Frame)
deriving DecidableEq

/-- Execute one scheduled action.  A simulation tick fires only while
its interval is scheduled, and advances the wall clock by its 1000 ms
period; a frame is delivered only while a websocket is open. -/
def exec (rng : Nat → Nat) (a : Action) (st : AppState) : AppState :=
  match a with
  | .startSyncA cfg => (startSync cfg st).1
  | .startResolveA r => startResolve r st
  | .stopSyncA => (stopSync st).1
  | .stopResolveA ok => stopResolve ok st
  | .simTickA => if st.simActive then simTick rng { st with now := st.now + 1000 } else st
  | .wsMessageA f => if st.websocket then wsDeliver f st else st

/-- Execute a trace of scheduled actions in order (single-threaded, one
at a time). -/
def execTrace (rng : Nat → Nat) (as : List Action) (st : AppState) : AppState :=
  as.foldl (fun s a => exec rng a s) st

/-- Run `n` firings of the simulation interval. -/
def simLoop (rng : Nat → Nat) : Nat → AppState → AppState
  | 0, st => st
  | n + 1, st => simLoop rng n (exec rng .simTickA st)

/-- The state of the page after `new RFSNApp()` on a fresh session (no
saved config): idle, no timers, no websocket, the initial DOM display
values, at wall-clock `t0`. -/
def initState (t0 : Nat) : AppState :=
  { config := none, isRunning := false, startTime := none, timerInterval := false,
    websocket := false, now := t0, currentPhase := "-", stepsText := "0 / 0",
    patchesText := "0", progressFillPct := none, statusText := "Ready",
    statusColor := statusColorOf "idle", startBtnDisabled := false, stopBtnDisabled := true,
    pauseBtnDisabled := true, activeTab := "config", log := [], notifications := [],
    completions := [], startInFlight := false, stopInFlight := false, simActive := false,
    simStep := 0, simPhaseIndex := 0 }

/-- A fixed seed for the `Math.random()` stream: every tick draws the
first pool message. -/
def rng0 : Nat → Nat := fun _ => 0

/-- A concrete configuration with all required fields filled in. -/
def cfgOk : Config :=
  { repoUrl := "https://github.com/octo/repo", repoBranch := "main",
    problemStatement := "fix the bug", githubToken := "", githubUsername := "",
    createPR := false, commitChanges := false, llmProvider := "openai", llmApiKey := "sk-1",
    llmModel := "gpt-4", temperature := 0, profile := "default", maxSteps := 50, maxTime := 30,
    useTrace := true, useRipgrep := true, useSymbols := true, useEmbeddings := false,
    strategyDirect := true, strategyTestDriven := false, strategyEnsemble := false }

/-- A concrete form configuration with every field left empty. -/
def cfgEmpty : Config :=
  { repoUrl := "", repoBranch := "", problemStatement := "", githubToken := "",
    githubUsername := "", createPR := false, commitChanges := false, llmProvider := "",
    llmApiKey := "", llmModel := "", temperature := 0, profile := "", maxSteps := 0,
    maxTime := 0, useTrace := false, useRipgrep := false, useSymbols := false,
    useEmbeddings := false, strategyDirect := false, strategyTestDriven := false,
    strategyEnsemble := false }

/-- A concrete state of a running session (status Running, elapsed timer
scheduled, fresh log). -/
def run0 : AppState :=
  { config := some cfgOk, isRunning := true, startTime := some 0, timerInterval := true,
    websocket := false, now := 0, currentPhase := "-", stepsText := "0 / 0", patchesText := "0",
    progressFillPct := none, statusText := "Running", statusColor := statusColorOf "running",
    startBtnDisabled := true, stopBtnDisabled := false, pauseBtnDisabled := false,
    activeTab := "process", log := [], notifications := [], completions := [],
    startInFlight := false, stopInFlight := false, simActive := false, simStep := 0,
    simPhaseIndex := 0 }

/-- A concrete `complete` message used by witnesses. -/
def dComplete7 : MsgData := { type_ := some "complete", success := some false, time_taken := some 7 }

/-- The invariant of an uncancelled simulation run that has executed `k`
ticks: still Running, interval scheduled, `k` on the step counter, start
stamp `t0`, the clock advanced by `k` one-second periods, and no
`complete` event delivered yet. -/
def SimInv (t0 k : Nat) (st : AppState) : Prop :=
  st.isRunning = true ∧ st.simActive = true ∧ st.simStep = k ∧
  st.startTime = some t0 ∧ st.now = t0 + 1000 * k ∧ st.completions = []

/-- The state right after `startAgent(cfgOk)` on the fresh page falls
back to simulation: the start fetch failed, `runSimulation` has been
entered and its interval is scheduled with the step counter at 0. -/
def simReady0 : AppState :=
  startResolve (.fail "TypeError: Failed to fetch") (startSync cfgOk (initState 0)).1

/-- A start immediately followed by a stop whose backend stop request
stays unsettled while the simulation fallback ticks 30 times: the
stop request settles only after the 30th tick. -/
def c8Trace : List Action :=
  [.startSyncA cfgOk, .stopSyncA, .startResolveA (.fail "TypeError: Failed to fetch")]
    ++ List.replicate 30 .simTickA ++ [.stopResolveA true]

/-! Helper lemmas: the log fold of `validateConfig` touches only the log. -/

theorem foldl_addLog_isRunning (l : List String) (st : AppState) :
    (l.foldl (fun s e => addLog "error" e s) st).isRunning = st.isRunning := by
  induction l generalizing st with
  | nil => rfl
  | cons a t ih => rw [List.foldl_cons, ih]; rfl

theorem foldl_addLog_timerInterval (l : List String) (st : AppState) :
    (l.foldl (fun s e => addLog "error" e s) st).timerInterval = st.timerInterval := by
  induction l generalizing st with
  | nil => rfl
  | cons a t ih => rw [List.foldl_cons, ih]; rfl

theorem foldl_addLog_websocket (l : List String) (st : AppState) :
    (l.foldl (fun s e => addLog "error" e s) st).websocket = st.websocket := by
  induction l generalizing st with
  | nil => rfl
  | cons a t ih => rw [List.foldl_cons, ih]; rfl

theorem foldl_addLog_startTime (l : List String) (st : AppState) :
    (l.foldl (fun s e => addLog "error" e s) st).startTime = st.startTime := by
  induction l generalizing st with
  | nil => rfl
  | cons a t ih => rw [List.foldl_cons, ih]; rfl

theorem foldl_addLog_config (l : List String) (st : AppState) :
    (l.foldl (fun s e => addLog "error" e s) st).config = st.config := by
  induction l generalizing st with
  | nil => rfl
  | cons a t ih => rw [List.foldl_cons, ih]; rfl

theorem foldl_addLog_notifications (l : List String) (st : AppState) :
    (l.foldl (fun s e => addLog "error" e s) st).notifications = st.notifications := by
  induction l generalizing st with
  | nil => rfl
  | cons a t ih => rw [List.foldl_cons, ih]; rfl

theorem foldl_addLog_simActive (l : List String) (st : AppState) :
    (l.foldl (fun s e => addLog "error" e s) st).simActive = st.simActive := by
  induction l generalizing st with
  | nil => rfl
  | cons a t ih => rw [List.foldl_cons, ih]; rfl

theorem foldl_addLog_startInFlight (l : List String) (st : AppState) :
    (l.foldl (fun s e => addLog "error" e s) st).startInFlight = st.startInFlight := by
  induction l generalizing st with
  | nil => rfl
  | cons a t ih => rw [List.foldl_cons, ih]; rfl

theorem foldl_addLog_completions (l : List String) (st : AppState) :
    (l.foldl (fun s e => addLog "error" e s) st).completions = st.completions := by
  induction l generalizing st with
  | nil => rfl
  | cons a t ih => rw [List.foldl_cons, ih]; rfl

/-- `startAgent` on a config with a missing required field: the
validation branch fires — the collected errors are logged, the
validation-error notification is shown, nothing else happens and no
start request is issued. -/
theorem startSync_invalid (cfg : Config) (st : AppState) (hm : requiredErrors cfg ≠ []) :
    startSync cfg st =
      (showNotification "❌ Configuration errors. Check log." "error"
        ((requiredErrors cfg).foldl (fun s e => addLog "error" e s) st), false) := by
  have hl : 0 < (requiredErrors cfg).length := List.length_pos.mpr hm
  unfold startSync validateConfigRun
  simp [hl]

/-- A stop issued while not Running returns at the guard: no state
change at all. -/
theorem stopFull_noop (ok : Bool) (st : AppState) (h : st.isRunning = false) :
    stopFull ok st = st := by
  unfold stopFull stopSync
  simp [h]

/-- After a completed stop the session is never Running. -/
theorem stopFull_not_running (ok : Bool) (st : AppState) :
    (stopFull ok st).isRunning = false := by
  unfold stopFull stopSync
  by_cases h : st.isRunning = false
  · simp [h]
  · simp only [h, if_false]
    cases ok <;>
      simp [stopResolve, cleanupAfterRun, addLog, updateStatus]

/-- A config missing one of the three required fields produces a
non-empty error list in `validateConfig`. -/
theorem requiredErrors_ne_nil (cfg : Config)
    (hm : cfg.repoUrl = "" ∨ cfg.problemStatement = "" ∨ cfg.llmApiKey = "") :
    requiredErrors cfg ≠ [] := by
  intro hnil
  rcases hm with h | h | h <;> simp [requiredErrors, h] at hnil

/-- Field-level reading of `startSync_invalid`: a validation failure is
reported (errors logged, error notification shown) and nothing else
changes — no session fields touched, no timer, no channel, no pending
start request; the already-running warning is not among the
notifications. -/
theorem startSync_invalid_fields (cfg : Config) (st : AppState)
    (hm' : requiredErrors cfg ≠ []) :
    (startSync cfg st).2 = false ∧
    ((startSync cfg st).1).isRunning = st.isRunning ∧
    ((startSync cfg st).1).timerInterval = st.timerInterval ∧
    ((startSync cfg st).1).websocket = st.websocket ∧
    ((startSync cfg st).1).startTime = st.startTime ∧
    ((startSync cfg st).1).config = st.config ∧
    ((startSync cfg st).1).simActive = st.simActive ∧
    ((startSync cfg st).1).startInFlight = st.startInFlight ∧
    ((startSync cfg st).1).notifications
      = st.notifications ++ [("❌ Configuration errors. Check log.", "error")] := by
  have heq := startSync_invalid cfg st hm'
  rw [heq]
  refine ⟨rfl, foldl_addLog_isRunning _ _, foldl_addLog_timerInterval _ _,
    foldl_addLog_websocket _ _, foldl_addLog_startTime _ _, foldl_addLog_config _ _,
    foldl_addLog_simActive _ _, foldl_addLog_startInFlight _ _, ?_⟩
  show ((requiredErrors cfg).foldl (fun s e => addLog "error" e s) st).notifications
      ++ [("❌ Configuration errors. Check log.", "error")] = _
  rw [foldl_addLog_notifications]

/-- C1: the sparse-update merge claimed for progress events fails in the
code.  After `{type:"progress", patches:2}` then
`{type:"progress", current_step:5}`, the patches display holds 2 but the
steps display is untouched (still its prior "0 / 0", not 5):
`updateProgress` guards the steps update on the absent `data.steps`
field instead of `data.current_step`. -/
theorem progress_steps_guard_bug :
    (handleWebSocketMessage { type_ := some "progress", current_step := some 5 }
      (handleWebSocketMessage { type_ := some "progress", patches := some 2 } run0)).patchesText
      = "2" ∧
    (handleWebSocketMessage { type_ := some "progress", current_step := some 5 }
      (handleWebSocketMessage { type_ := some "progress", patches := some 2 } run0)).stepsText
      = run0.stepsText ∧
    run0.stepsText = "0 / 0" := by
  exact ⟨rfl, rfl, rfl⟩

/-- C2 counterexample: on a running session a malformed (non-JSON) frame
makes the `onmessage` body propagate the `JSON.parse` exception out of
the handler (there is no try/catch and no locally logged `error` event),
refuting the claim that the parse failure is never propagated; the state
is untouched, so nothing was logged either. -/
theorem malformed_frame_throws_cex :
    onmessage Frame.malformed run0 = Except.error () ∧
    wsDeliver Frame.malformed run0 = run0 ∧
    run0.isRunning = true := by
  exact ⟨rfl, rfl, rfl⟩

/-- C2 amended: a malformed frame throws the parse exception out of the
message handler and no local error event is logged; the exception stops
at the handler boundary, so the session state — in particular the
Running status — is unchanged and the session is not terminated; a
payload missing `type` falls through the dispatch switch and is silently
ignored. -/
theorem malformed_frame_behavior (st : AppState) (d : MsgData) (hd : d.type_ = none) :
    onmessage Frame.malformed st = Except.error () ∧
    wsDeliver Frame.malformed st = st ∧
    (wsDeliver Frame.malformed st).isRunning = st.isRunning ∧
    handleWebSocketMessage d st = st := by
  refine ⟨rfl, rfl, rfl, ?_⟩
  simp [handleWebSocketMessage, hd]

/-- C2 witness: the amended behavior at a concrete running session and a
concrete typeless payload. -/
theorem malformed_frame_behavior_witness :
    onmessage Frame.malformed run0 = Except.error () ∧
    wsDeliver Frame.malformed run0 = run0 ∧
    (wsDeliver Frame.malformed run0).isRunning = run0.isRunning ∧
    handleWebSocketMessage { } run0 = run0 :=
  malformed_frame_behavior run0 { } rfl

/-- C3 counterexample: on a concrete running session, the synchronous
prefix of `stopAgent` (everything before the awaited stop request) does
not flip `isRunning` — it is still true — so a second `stop()` issued
while the first is in flight passes the guard and proceeds rather than
observing "already stopped". -/
theorem stop_not_sync_cex :
    ((stopSync run0).1).isRunning = true ∧
    (stopSync ((stopSync run0).1)).2 = true := by
  exact ⟨rfl, rfl⟩

/-- C3 amended: `stopAgent` flips `isRunning` only in `cleanupAfterRun`,
which runs after the awaited backend stop request settles; its
synchronous prefix leaves `isRunning` true, so a fast second `stop()`
call during the in-flight window passes the guard and proceeds (issuing
its own request and teardown) instead of seeing the session already
stopped.  The eventual teardown does set `isRunning` to false. -/
theorem stop_flip_after_await (st : AppState) (ok : Bool) (h : st.isRunning = true) :
    ((stopSync st).1).isRunning = true ∧
    (stopSync ((stopSync st).1)).2 = true ∧
    (stopResolve ok ((stopSync st).1)).isRunning = false := by
  have h1 : ((stopSync st).1).isRunning = true := by simp [stopSync, h, addLog]
  have h2 : ((stopSync st).1).stopInFlight = true := by simp [stopSync, h, addLog]
  refine ⟨h1, ?_, ?_⟩
  · generalize hgen : (stopSync st).1 = s at h1
    simp [stopSync, h1]
  · cases ok <;> simp [stopResolve, h2, cleanupAfterRun, addLog, updateStatus]

/-- C3 witness: the amended statement at a concrete running session. -/
theorem stop_flip_after_await_witness :
    ((stopSync run0).1).isRunning = true ∧
    (stopSync ((stopSync run0).1)).2 = true ∧
    (stopResolve true ((stopSync run0).1)).isRunning = false :=
  stop_flip_after_await run0 true rfl

/-- C4: `startAgent` with a valid config while a session is already
Running is rejected: the whole effect is the "already running" warning
notification — the state is otherwise exactly unchanged (same session,
same start stamp, same log), the start is not queued (no pending start
request is created) and no new session is started. -/
theorem start_while_running_rejected (cfg : Config) (st : AppState)
    (hv : requiredErrors cfg = []) (hr : st.isRunning = true) :
    startSync cfg st = (showNotification "⚠️ Agent is already running" "warning" st, false) ∧
    ((startSync cfg st).1).isRunning = st.isRunning ∧
    ((startSync cfg st).1).startTime = st.startTime ∧
    ((startSync cfg st).1).config = st.config ∧
    ((startSync cfg st).1).log = st.log ∧
    ((startSync cfg st).1).startInFlight = st.startInFlight := by
  have he : startSync cfg st
      = (showNotification "⚠️ Agent is already running" "warning" st, false) := by
    unfold startSync validateConfigRun
    simp [hv, hr]
  rw [he]
  exact ⟨rfl, rfl, rfl, rfl, rfl, rfl⟩

/-- C4 witness: the rejection at a concrete valid config and a concrete
running session. -/
theorem start_while_running_rejected_witness :
    startSync cfgOk run0
      = (showNotification "⚠️ Agent is already running" "warning" run0, false) ∧
    ((startSync cfgOk run0).1).isRunning = run0.isRunning ∧
    ((startSync cfgOk run0).1).startTime = run0.startTime ∧
    ((startSync cfgOk run0).1).config = run0.config ∧
    ((startSync cfgOk run0).1).log = run0.log ∧
    ((startSync cfgOk run0).1).startInFlight = run0.startInFlight :=
  start_while_running_rejected cfgOk run0 (by decide) rfl

/-- C5: `startAgent` on a config with a required field absent fails at
validation: the errors are logged and the validation-error notification
shown, no session is created (still not Running), no timer and no
channel are started, no start request is issued, and a subsequent
`stop()` is a complete no-op. -/
theorem validation_blocks_session (cfg : Config) (st : AppState) (ok : Bool)
    (hm : cfg.repoUrl = "" ∨ cfg.problemStatement = "" ∨ cfg.llmApiKey = "")
    (hidle : st.isRunning = false) :
    (startSync cfg st).2 = false ∧
    ((startSync cfg st).1).isRunning = false ∧
    ((startSync cfg st).1).timerInterval = st.timerInterval ∧
    ((startSync cfg st).1).websocket = st.websocket ∧
    ((startSync cfg st).1).startTime = st.startTime ∧
    ((startSync cfg st).1).config = st.config ∧
    ((startSync cfg st).1).startInFlight = st.startInFlight ∧
    ((startSync cfg st).1).notifications
      = st.notifications ++ [("❌ Configuration errors. Check log.", "error")] ∧
    stopFull ok ((startSync cfg st).1) = (startSync cfg st).1 := by
  obtain ⟨h1, h2, h3, h4, h5, h6, h7, h8, h9⟩ :=
    startSync_invalid_fields cfg st (requiredErrors_ne_nil cfg hm)
  have hrun : ((startSync cfg st).1).isRunning = false := h2.trans hidle
  exact ⟨h1, hrun, h3, h4, h5, h6, h8, h9, stopFull_noop ok _ hrun⟩

/-- C5 witness: the empty config against the freshly initialized idle
page. -/
theorem validation_blocks_session_witness :
    (startSync cfgEmpty (initState 0)).2 = false ∧
    ((startSync cfgEmpty (initState 0)).1).isRunning = false ∧
    ((startSync cfgEmpty (initState 0)).1).timerInterval = (initState 0).timerInterval ∧
    ((startSync cfgEmpty (initState 0)).1).websocket = (initState 0).websocket ∧
    ((startSync cfgEmpty (initState 0)).1).startTime = (initState 0).startTime ∧
    ((startSync cfgEmpty (initState 0)).1).config = (initState 0).config ∧
    ((startSync cfgEmpty (initState 0)).1).startInFlight = (initState 0).startInFlight ∧
    ((startSync cfgEmpty (initState 0)).1).notifications
      = (initState 0).notifications ++ [("❌ Configuration errors. Check log.", "error")] ∧
    stopFull true ((startSync cfgEmpty (initState 0)).1) = (startSync cfgEmpty (initState 0)).1 :=
  validation_blocks_session cfgEmpty (initState 0) true (Or.inl rfl) rfl

/-- C6: `stopAgent` is idempotent: when not Running it is a no-op that
changes nothing and raises nothing, and a second stop after a completed
stop is exactly the identity — no teardown side effect happens twice. -/
theorem stop_idempotent (b b' : Bool) (st : AppState) :
    (st.isRunning = false → stopFull b st = st) ∧
    stopFull b' (stopFull b st) = stopFull b st := by
  exact ⟨fun h => stopFull_noop b st h, stopFull_noop b' _ (stopFull_not_running b st)⟩

/-- C6 witness: stop on the idle initial page is the identity, and a
second stop after stopping a concrete running session changes nothing. -/
theorem stop_idempotent_witness :
    stopFull true (initState 5) = initState 5 ∧
    stopFull false (stopFull true run0) = stopFull true run0 :=
  ⟨(stop_idempotent true false (initState 5)).1 rfl, (stop_idempotent true false run0).2⟩

/-- C9 counterexample: with the session not Running (the fresh idle
page), a `complete` frame is not ignored: it is delivered to the
observer/history trace and its logs are appended — there is no
`isRunning` gate in `handleWebSocketMessage`. -/
theorem terminal_not_gated_cex :
    (initState 0).isRunning = false ∧
    (handleWebSocketMessage
      { type_ := some "complete", success := some true, time_taken := some 42 }
      (initState 0)).completions = [(some true, some 42)] ∧
    (handleWebSocketMessage
      { type_ := some "complete", success := some true, time_taken := some 42 }
      (initState 0)).log ≠ (initState 0).log := by
  refine ⟨rfl, rfl, ?_⟩
  decide

/-- C9 amended: `complete` events are processed unconditionally, in every
session state: the dispatch names no `isRunning` gate, so a `complete`
arriving while not Running still runs `handleTaskComplete` — logs,
(idempotent) teardown, notification, results tab — and is delivered to
the observer/history trace; afterwards the session is not Running. -/
theorem terminal_events_ungated (st : AppState) (d : MsgData)
    (hd : d.type_ = some "complete") :
    handleWebSocketMessage d st = handleTaskComplete d st ∧
    (handleWebSocketMessage d st).completions
      = st.completions ++ [(d.success, d.time_taken)] ∧
    (handleWebSocketMessage d st).isRunning = false := by
  have he : handleWebSocketMessage d st = handleTaskComplete d st := by
    simp [handleWebSocketMessage, hd]
  refine ⟨he, ?_, ?_⟩ <;> rw [he] <;>
    simp [handleTaskComplete, cleanupAfterRun, addLog, updateStatus, showNotification]

/-- C9 witness: the amended statement at the idle page and a concrete
complete event. -/
theorem terminal_events_ungated_witness :
    handleWebSocketMessage dComplete7 (initState 3)
      = handleTaskComplete dComplete7 (initState 3) ∧
    (handleWebSocketMessage dComplete7 (initState 3)).completions
      = (initState 3).completions ++ [(dComplete7.success, dComplete7.time_taken)] ∧
    (handleWebSocketMessage dComplete7 (initState 3)).isRunning = false :=
  terminal_events_ungated (initState 3) dComplete7 rfl

/-- C10: `startAgent` evaluates validation before the already-running
check: with a required field missing and a session currently Running,
the caller sees the validation-error notification (not the
already-running warning), no start request is issued, and the running
session's fields are untouched. -/
theorem validation_before_running_check (cfg : Config) (st : AppState)
    (hm : cfg.repoUrl = "" ∨ cfg.problemStatement = "" ∨ cfg.llmApiKey = "")
    (_hr : st.isRunning = true) :
    (startSync cfg st).2 = false ∧
    ((startSync cfg st).1).isRunning = st.isRunning ∧
    ((startSync cfg st).1).startTime = st.startTime ∧
    ((startSync cfg st).1).config = st.config ∧
    ((startSync cfg st).1).timerInterval = st.timerInterval ∧
    ((startSync cfg st).1).websocket = st.websocket ∧
    ((startSync cfg st).1).startInFlight = st.startInFlight ∧
    ((startSync cfg st).1).notifications
      = st.notifications ++ [("❌ Configuration errors. Check log.", "error")] := by
  obtain ⟨h1, h2, h3, h4, h5, h6, h7, h8, h9⟩ :=
    startSync_invalid_fields cfg st (requiredErrors_ne_nil cfg hm)
  exact ⟨h1, h2, h5, h6, h3, h4, h8, h9⟩

/-- C10 witness: the empty config submitted while a concrete session is
Running. -/
theorem validation_before_running_check_witness :
    (startSync cfgEmpty run0).2 = false ∧
    ((startSync cfgEmpty run0).1).isRunning = run0.isRunning ∧
    ((startSync cfgEmpty run0).1).startTime = run0.startTime ∧
    ((startSync cfgEmpty run0).1).config = run0.config ∧
    ((startSync cfgEmpty run0).1).timerInterval = run0.timerInterval ∧
    ((startSync cfgEmpty run0).1).websocket = run0.websocket ∧
    ((startSync cfgEmpty run0).1).startInFlight = run0.startInFlight ∧
    ((startSync cfgEmpty run0).1).notifications
      = run0.notifications ++ [("❌ Configuration errors. Check log.", "error")] :=
  validation_before_running_check cfgEmpty run0 (Or.inl rfl) rfl

theorem exec_tick_frozen (rng : Nat → Nat) (st : AppState) (h : st.simActive = false) :
    exec rng .simTickA st = st := by
  simp [exec, h]

theorem simLoop_frozen (rng : Nat → Nat) (n : Nat) (st : AppState) (h : st.simActive = false) :
    simLoop rng n st = st := by
  induction n with
  | zero => rfl
  | succ n ih => simp only [simLoop]; rw [exec_tick_frozen rng st h]; exact ih

theorem simLoop_succ_right (rng : Nat → Nat) (n : Nat) (st : AppState) :
    simLoop rng (n + 1) st = exec rng .simTickA (simLoop rng n st) := by
  induction n generalizing st with
  | zero => rfl
  | succ n ih => simp only [simLoop]; exact ih _

section ProjLemmas

variable (l m status text : String) (ph : Option String) (d : MsgData) (st : AppState)

@[simp] theorem addLog_isRunning : (addLog l m st).isRunning = st.isRunning := rfl
@[simp] theorem addLog_simActive : (addLog l m st).simActive = st.simActive := rfl
@[simp] theorem addLog_simStep : (addLog l m st).simStep = st.simStep := rfl
@[simp] theorem addLog_simPhaseIndex : (addLog l m st).simPhaseIndex = st.simPhaseIndex := rfl
@[simp] theorem addLog_startTime : (addLog l m st).startTime = st.startTime := rfl
@[simp] theorem addLog_now : (addLog l m st).now = st.now := rfl
@[simp] theorem addLog_completions : (addLog l m st).completions = st.completions := rfl
@[simp] theorem addLog_websocket : (addLog l m st).websocket = st.websocket := rfl
@[simp] theorem addLog_timerInterval : (addLog l m st).timerInterval = st.timerInterval := rfl
@[simp] theorem addLog_startInFlight : (addLog l m st).startInFlight = st.startInFlight := rfl
@[simp] theorem addLog_stopInFlight : (addLog l m st).stopInFlight = st.stopInFlight := rfl

@[simp] theorem updatePhase_isRunning : (updatePhase ph st).isRunning = st.isRunning := rfl
@[simp] theorem updatePhase_simActive : (updatePhase ph st).simActive = st.simActive := rfl
@[simp] theorem updatePhase_simStep : (updatePhase ph st).simStep = st.simStep := rfl
@[simp] theorem updatePhase_simPhaseIndex :
    (updatePhase ph st).simPhaseIndex = st.simPhaseIndex := rfl
@[simp] theorem updatePhase_startTime : (updatePhase ph st).startTime = st.startTime := rfl
@[simp] theorem updatePhase_now : (updatePhase ph st).now = st.now := rfl
@[simp] theorem updatePhase_completions : (updatePhase ph st).completions = st.completions := rfl
@[simp] theorem updatePhase_stopInFlight :
    (updatePhase ph st).stopInFlight = st.stopInFlight := rfl

@[simp] theorem updateStatus_isRunning : (updateStatus status text st).isRunning = st.isRunning :=
  rfl
@[simp] theorem updateStatus_simActive : (updateStatus status text st).simActive = st.simActive :=
  rfl
@[simp] theorem updateStatus_simStep : (updateStatus status text st).simStep = st.simStep := rfl
@[simp] theorem updateStatus_startTime :
    (updateStatus status text st).startTime = st.startTime := rfl
@[simp] theorem updateStatus_now : (updateStatus status text st).now = st.now := rfl
@[simp] theorem updateStatus_completions :
    (updateStatus status text st).completions = st.completions := rfl
@[simp] theorem updateStatus_stopInFlight :
    (updateStatus status text st).stopInFlight = st.stopInFlight := rfl

@[simp] theorem showNotification_isRunning :
    (showNotification l m st).isRunning = st.isRunning := rfl
@[simp] theorem showNotification_simActive :
    (showNotification l m st).simActive = st.simActive := rfl
@[simp] theorem showNotification_simStep : (showNotification l m st).simStep = st.simStep := rfl
@[simp] theorem showNotification_startTime :
    (showNotification l m st).startTime = st.startTime := rfl
@[simp] theorem showNotification_now : (showNotification l m st).now = st.now := rfl
@[simp] theorem showNotification_completions :
    (showNotification l m st).completions = st.completions := rfl
@[simp] theorem showNotification_stopInFlight :
    (showNotification l m st).stopInFlight = st.stopInFlight := rfl

@[simp] theorem updateProgress_isRunning : (updateProgress d st).isRunning = st.isRunning := by
  simp only [updateProgress]; split_ifs <;> rfl
@[simp] theorem updateProgress_simActive : (updateProgress d st).simActive = st.simActive := by
  simp only [updateProgress]; split_ifs <;> rfl
@[simp] theorem updateProgress_simStep : (updateProgress d st).simStep = st.simStep := by
  simp only [updateProgress]; split_ifs <;> rfl
@[simp] theorem updateProgress_simPhaseIndex :
    (updateProgress d st).simPhaseIndex = st.simPhaseIndex := by
  simp only [updateProgress]; split_ifs <;> rfl
@[simp] theorem updateProgress_startTime : (updateProgress d st).startTime = st.startTime := by
  simp only [updateProgress]; split_ifs <;> rfl
@[simp] theorem updateProgress_now : (updateProgress d st).now = st.now := by
  simp only [updateProgress]; split_ifs <;> rfl
@[simp] theorem updateProgress_completions :
    (updateProgress d st).completions = st.completions := by
  simp only [updateProgress]; split_ifs <;> rfl
@[simp] theorem updateProgress_stopInFlight :
    (updateProgress d st).stopInFlight = st.stopInFlight := by
  simp only [updateProgress]; split_ifs <;> rfl

@[simp] theorem cleanupAfterRun_isRunning : (cleanupAfterRun st).isRunning = false := rfl
@[simp] theorem cleanupAfterRun_simActive : (cleanupAfterRun st).simActive = st.simActive := rfl
@[simp] theorem cleanupAfterRun_simStep : (cleanupAfterRun st).simStep = st.simStep := rfl
@[simp] theorem cleanupAfterRun_startTime : (cleanupAfterRun st).startTime = st.startTime := rfl
@[simp] theorem cleanupAfterRun_now : (cleanupAfterRun st).now = st.now := rfl
@[simp] theorem cleanupAfterRun_completions :
    (cleanupAfterRun st).completions = st.completions := rfl
@[simp] theorem cleanupAfterRun_startInFlight :
    (cleanupAfterRun st).startInFlight = st.startInFlight := rfl
@[simp] theorem cleanupAfterRun_stopInFlight :
    (cleanupAfterRun st).stopInFlight = st.stopInFlight := rfl

@[simp] theorem handleTaskComplete_completions :
    (handleTaskComplete d st).completions = st.completions ++ [(d.success, d.time_taken)] := by
  simp [handleTaskComplete]
@[simp] theorem handleTaskComplete_isRunning : (handleTaskComplete d st).isRunning = false := by
  simp [handleTaskComplete]
@[simp] theorem handleTaskComplete_simActive :
    (handleTaskComplete d st).simActive = st.simActive := by
  simp [handleTaskComplete]
@[simp] theorem handleTaskComplete_simStep : (handleTaskComplete d st).simStep = st.simStep := by
  simp [handleTaskComplete]
@[simp] theorem handleTaskComplete_stopInFlight :
    (handleTaskComplete d st).stopInFlight = st.stopInFlight := by
  simp [handleTaskComplete]

end ProjLemmas

theorem simTick_inv (rng : Nat → Nat) (t0 k : Nat) (st : AppState)
    (h : SimInv t0 k st) (hk : k + 1 < 30) :
    SimInv t0 (k + 1) (exec rng .simTickA st) := by
  obtain ⟨hrun, hact, hstep, hstart, hnow, hcomp⟩ := h
  have hlt : ¬ (30 ≤ st.simStep + 1) := by rw [hstep]; omega
  simp only [exec, hact, if_true]
  unfold SimInv
  simp only [simTick]
  split_ifs with h1 h2 h3 h4 h5 h6 <;>
    simp_all <;> omega

theorem simTick_final (rng : Nat → Nat) (t0 : Nat) (st : AppState) (h : SimInv t0 29 st) :
    (exec rng .simTickA st).completions = [(some true, some 30)] ∧
    (exec rng .simTickA st).simActive = false ∧
    (exec rng .simTickA st).isRunning = false ∧
    (exec rng .simTickA st).simStep = 30 := by
  obtain ⟨hrun, hact, hstep, hstart, hnow, hcomp⟩ := h
  simp only [exec, hact, if_true]
  simp only [simTick]
  split_ifs with h1 h2 h3 <;> simp_all <;> omega

theorem simLoop_inv (rng : Nat → Nat) (t0 : Nat) (st : AppState) (h : SimInv t0 0 st) :
    ∀ k, k ≤ 29 → SimInv t0 k (simLoop rng k st) := by
  intro k
  induction k with
  | zero => intro hk; simpa [simLoop] using h
  | succ k ih =>
    intro hk
    rw [simLoop_succ_right]
    exact simTick_inv rng t0 k _ (ih (by omega)) (by omega)

theorem simLoop_add (rng : Nat → Nat) (m n : Nat) (st : AppState) :
    simLoop rng (m + n) st = simLoop rng n (simLoop rng m st) := by
  induction n with
  | zero => rfl
  | succ n ih =>
    rw [show m + (n + 1) = (m + n) + 1 from rfl, simLoop_succ_right, ih, ← simLoop_succ_right]

theorem simLoop_stopped (rng : Nat → Nat) (n : Nat) (st : AppState) (h : st.isRunning = false) :
    (simLoop rng n st).completions = st.completions ∧ (simLoop rng n st).isRunning = false := by
  induction n generalizing st with
  | zero => exact ⟨rfl, h⟩
  | succ n ih =>
    have hx : (exec rng .simTickA st).completions = st.completions ∧
        (exec rng .simTickA st).isRunning = false := by
      by_cases ha : st.simActive = true
      · simp [exec, ha, simTick, h]
      · simp only [exec]
        rw [if_neg ha]
        exact ⟨rfl, h⟩
    obtain ⟨ih1, ih2⟩ := ih (exec rng .simTickA st) hx.2
    simp only [simLoop]
    exact ⟨ih1.trans hx.1, ih2⟩

theorem execTrace_append (rng : Nat → Nat) (l1 l2 : List Action) (st : AppState) :
    execTrace rng (l1 ++ l2) st = execTrace rng l2 (execTrace rng l1 st) := by
  simp [execTrace, List.foldl_append]

theorem execTrace_replicate_tick (rng : Nat → Nat) (n : Nat) (st : AppState) :
    execTrace rng (List.replicate n .simTickA) st = simLoop rng n st := by
  induction n generalizing st with
  | zero => rfl
  | succ n ih =>
    rw [List.replicate_succ]
    show execTrace rng (List.replicate n .simTickA) (exec rng .simTickA st) = _
    rw [ih]
    rfl

theorem simLoop_stopInFlight (rng : Nat → Nat) (n : Nat) (st : AppState) :
    (simLoop rng n st).stopInFlight = st.stopInFlight := by
  induction n generalizing st with
  | zero => rfl
  | succ n ih =>
    have hx : (exec rng .simTickA st).stopInFlight = st.stopInFlight := by
      by_cases ha : st.simActive = true
      · simp only [exec, ha, if_true]
        simp only [simTick]
        split_ifs <;> simp
      · simp only [exec]
        rw [if_neg ha]
    simp only [simLoop]
    exact (ih _).trans hx

theorem startSync_valid_state (cfg : Config) (st : AppState) (hv : requiredErrors cfg = [])
    (hidle : st.isRunning = false) :
    (startSync cfg st).2 = true ∧
    ((startSync cfg st).1).isRunning = true ∧
    ((startSync cfg st).1).startInFlight = true ∧
    ((startSync cfg st).1).simActive = st.simActive ∧
    ((startSync cfg st).1).startTime = some st.now ∧
    ((startSync cfg st).1).now = st.now ∧
    ((startSync cfg st).1).completions = st.completions ∧
    ((startSync cfg st).1).simStep = st.simStep := by
  unfold startSync validateConfigRun
  simp [hv, hidle, clearLog, startTimer]

theorem stopSync_state (st : AppState) (h : st.isRunning = true) :
    ((stopSync st).1).isRunning = true ∧
    ((stopSync st).1).stopInFlight = true ∧
    ((stopSync st).1).startInFlight = st.startInFlight ∧
    ((stopSync st).1).simActive = st.simActive ∧
    ((stopSync st).1).completions = st.completions ∧
    ((stopSync st).1).now = st.now ∧
    ((stopSync st).1).startTime = st.startTime := by
  simp [stopSync, h]

theorem stopResolve_state (ok : Bool) (st : AppState) (h : st.stopInFlight = true) :
    (stopResolve ok st).isRunning = false ∧
    (stopResolve ok st).startInFlight = st.startInFlight ∧
    (stopResolve ok st).simActive = st.simActive ∧
    (stopResolve ok st).completions = st.completions ∧
    (stopResolve ok st).now = st.now := by
  cases ok <;> simp [stopResolve, h]

theorem startResolve_fail_state (e : String) (st : AppState) (h : st.startInFlight = true) :
    (startResolve (.fail e) st).isRunning = st.isRunning ∧
    (startResolve (.fail e) st).simActive = true ∧
    (startResolve (.fail e) st).simStep = 0 ∧
    (startResolve (.fail e) st).completions = st.completions ∧
    (startResolve (.fail e) st).now = st.now ∧
    (startResolve (.fail e) st).startTime = st.startTime ∧
    (startResolve (.fail e) st).stopInFlight = st.stopInFlight := by
  simp [startResolve, h, runSimulationStart]

/-- C7: the simulation fallback, run uncancelled from its entry state
(Running, interval scheduled, step 0, start stamp `t0`): for every
random stream (fixed seed) it emits no `complete` event and keeps its
interval scheduled through the first 29 ticks, terminates at exactly the
30th tick — interval cleared, session no longer Running, step counter
30 — delivering exactly one `complete` event with `success = true` and
`time_taken = 30`, the elapsed wall seconds of 30 one-second ticks; all
later firings change nothing.  The run is a pure function of the stream,
so the output is reproducible for a fixed seed. -/
theorem simulation_terminates (rng : Nat → Nat) (t0 : Nat) (st : AppState)
    (h : SimInv t0 0 st) :
    (∀ k, k ≤ 29 → (simLoop rng k st).completions = [] ∧ (simLoop rng k st).simActive = true) ∧
    (simLoop rng 30 st).completions = [(some true, some 30)] ∧
    (simLoop rng 30 st).simActive = false ∧
    (simLoop rng 30 st).isRunning = false ∧
    (simLoop rng 30 st).simStep = 30 ∧
    (∀ n, 30 ≤ n → simLoop rng n st = simLoop rng 30 st) := by
  have hinv := simLoop_inv rng t0 st h
  have h30 := simTick_final rng t0 (simLoop rng 29 st) (hinv 29 (by omega))
  rw [← simLoop_succ_right] at h30
  norm_num at h30
  refine ⟨fun k hk => ⟨(hinv k hk).2.2.2.2.2, (hinv k hk).2.1⟩,
    h30.1, h30.2.1, h30.2.2.1, h30.2.2.2, fun n hn => ?_⟩
  rw [show n = 30 + (n - 30) by omega, simLoop_add,
    simLoop_frozen rng (n - 30) _ h30.2.1]

/-- C7 witness: the terminating run at the concrete fallback entry state
and the constant random stream. -/
theorem simulation_terminates_witness :
    (simLoop rng0 30 simReady0).completions = [(some true, some 30)] ∧
    (simLoop rng0 30 simReady0).simActive = false ∧
    (simLoop rng0 30 simReady0).isRunning = false ∧
    (simLoop rng0 30 simReady0).simStep = 30 :=
  have h := simulation_terminates rng0 0 simReady0 ⟨rfl, rfl, rfl, rfl, rfl, rfl⟩
  ⟨h.2.1, h.2.2.1, h.2.2.2.1, h.2.2.2.2.1⟩

/-- C8 counterexample: a start immediately followed by a stop does emit
a `complete` event when the stop request stays in flight while the
fallback simulation runs its 30 ticks — `stopAgent` flips `isRunning`
only after its awaited request settles, so the simulation never sees the
cancellation and completes. -/
theorem cancel_completion_cex :
    (execTrace rng0 c8Trace (initState 0)).completions = [(some true, some 30)] := by
  decide

/-- C8 amended: start immediately followed by stop emits no `complete`
event provided the stop's teardown (run when its awaited backend stop
request settles) completes before the fallback simulation's 30th tick:
whether the teardown settles after the fallback is scheduled and any
`m < 30` ticks have fired (first pair of conjuncts), or before the
fallback is even scheduled (second pair), no `complete` event is ever
delivered and the session ends not Running — for every valid config,
any number `n` of further ticks and every random stream. -/
theorem cancel_suppresses_completion (cfg : Config) (ok : Bool) (e : String) (t0 m n : Nat)
    (rng : Nat → Nat) (hv : requiredErrors cfg = []) (hm : m < 30) :
    ((execTrace rng ([.startSyncA cfg, .stopSyncA, .startResolveA (.fail e)]
        ++ List.replicate m .simTickA ++ [.stopResolveA ok] ++ List.replicate n .simTickA)
      (initState t0)).completions = [] ∧
    (execTrace rng ([.startSyncA cfg, .stopSyncA, .startResolveA (.fail e)]
        ++ List.replicate m .simTickA ++ [.stopResolveA ok] ++ List.replicate n .simTickA)
      (initState t0)).isRunning = false) ∧
    ((execTrace rng ([.startSyncA cfg, .stopSyncA, .stopResolveA ok, .startResolveA (.fail e)]
        ++ List.replicate n .simTickA) (initState t0)).completions = [] ∧
    (execTrace rng ([.startSyncA cfg, .stopSyncA, .stopResolveA ok, .startResolveA (.fail e)]
        ++ List.replicate n .simTickA) (initState t0)).isRunning = false) := by
  obtain ⟨v1, v2, v3, v4, v5, v6, v7, v8⟩ :=
    startSync_valid_state cfg (initState t0) hv rfl
  obtain ⟨p1, p2, p3, p4, p5, p6, p7⟩ := stopSync_state ((startSync cfg (initState t0)).1) v2
  constructor
  · -- teardown settles after the fallback is scheduled and m < 30 ticks
    obtain ⟨r1, r2, r3, r4, r5, r6, r7⟩ := startResolve_fail_state e
      ((stopSync ((startSync cfg (initState t0)).1)).1) (p3.trans v3)
    have hinv0 : SimInv t0 0
        (startResolve (.fail e) ((stopSync ((startSync cfg (initState t0)).1)).1)) := by
      refine ⟨r1.trans p1, r2, r3, (r6.trans (p7.trans v5)).trans rfl, ?_, ?_⟩
      · rw [r5, p6, v6]; simp [initState]
      · exact (r4.trans (p5.trans v7)).trans rfl
    have hsim := simLoop_inv rng t0 _ hinv0 m (by omega)
    have hstif : (simLoop rng m
        (startResolve (.fail e) ((stopSync ((startSync cfg (initState t0)).1)).1))).stopInFlight
        = true :=
      (simLoop_stopInFlight rng m _).trans (r7.trans p2)
    obtain ⟨q1, q2, q3, q4, q5⟩ := stopResolve_state ok _ hstif
    obtain ⟨w1, w2⟩ := simLoop_stopped rng n _ q1
    have htr : execTrace rng ([.startSyncA cfg, .stopSyncA, .startResolveA (.fail e)]
          ++ List.replicate m .simTickA ++ [.stopResolveA ok] ++ List.replicate n .simTickA)
        (initState t0)
        = simLoop rng n (stopResolve ok (simLoop rng m
            (startResolve (.fail e) ((stopSync ((startSync cfg (initState t0)).1)).1)))) := by
      rw [execTrace_append, execTrace_append, execTrace_append,
        execTrace_replicate_tick, execTrace_replicate_tick]
      rfl
    rw [htr]
    exact ⟨w1.trans (q4.trans hsim.2.2.2.2.2), w2⟩
  · -- teardown settles before the fallback is scheduled
    obtain ⟨q1, q2, q3, q4, q5⟩ :=
      stopResolve_state ok ((stopSync ((startSync cfg (initState t0)).1)).1) p2
    obtain ⟨r1, r2, r3, r4, r5, r6, r7⟩ := startResolve_fail_state e
      (stopResolve ok ((stopSync ((startSync cfg (initState t0)).1)).1))
      (q2.trans (p3.trans v3))
    have hrun : (startResolve (.fail e)
        (stopResolve ok ((stopSync ((startSync cfg (initState t0)).1)).1))).isRunning
        = false := r1.trans q1
    obtain ⟨w1, w2⟩ := simLoop_stopped rng n _ hrun
    have htr : execTrace rng
          ([.startSyncA cfg, .stopSyncA, .stopResolveA ok, .startResolveA (.fail e)]
            ++ List.replicate n .simTickA) (initState t0)
        = simLoop rng n (startResolve (.fail e)
            (stopResolve ok ((stopSync ((startSync cfg (initState t0)).1)).1))) := by
      rw [execTrace_append, execTrace_replicate_tick]
      rfl
    rw [htr]
    exact ⟨w1.trans (r4.trans (q4.trans ((p5.trans v7).trans rfl))), w2⟩

/-- C8 witness: the amended statement at the concrete valid config, a
reachable backend stop, the teardown settling after 10 of 30 ticks (and,
in the second pair, before the fallback is scheduled), 25 further ticks
and the constant stream. -/
theorem cancel_suppresses_completion_witness :
    ((execTrace rng0 ([.startSyncA cfgOk, .stopSyncA,
        .startResolveA (.fail "TypeError: Failed to fetch")]
        ++ List.replicate 10 .simTickA ++ [.stopResolveA true] ++ List.replicate 25 .simTickA)
      (initState 0)).completions = [] ∧
    (execTrace rng0 ([.startSyncA cfgOk, .stopSyncA,
        .startResolveA (.fail "TypeError: Failed to fetch")]
        ++ List.replicate 10 .simTickA ++ [.stopResolveA true] ++ List.replicate 25 .simTickA)
      (initState 0)).isRunning = false) ∧
    ((execTrace rng0 ([.startSyncA cfgOk, .stopSyncA, .stopResolveA true,
        .startResolveA (.fail "TypeError: Failed to fetch")]
        ++ List.replicate 25 .simTickA) (initState 0)).completions = [] ∧
    (execTrace rng0 ([.startSyncA cfgOk, .stopSyncA, .stopResolveA true,
        .startResolveA (.fail "TypeError: Failed to fetch")]
        ++ List.replicate 25 .simTickA) (initState 0)).isRunning = false) :=
  cancel_suppresses_completion cfgOk true "TypeError: Failed to fetch" 0 10 25 rng0
    (by decide) (by decide)
end RFSN
